import Mathlib

/-!
Verification development for the code-review-assistant backend.

The development has two parts.

Part one is a shallow embedding of the TypeScript API handlers present in the
repository under `src/data/workout_app copy` and the unnamed Next.js route
file: the workout-session log handler, the workout-templates GET endpoint and
the workout-template create handler. JavaScript request bodies are embedded
as explicit runtime values with JavaScript truthiness, database effects are
returned as explicit write lists, and HTTP responses as status/body records.

Part two models the session and context-routing core (SessionManager,
ModeController, ContextRouter, IndexCache, SummaryGenerator,
ChatHistoryStore). The implementation of that core is not part of the
repository snapshot (only its design document and README describe it), so
each definition there is modelled from the specification text, as flagged in
its doc comment. Sessions are explicit records, per-session serialization is
reflected by folding `handleQuery` over an arbitrary list of calls, and the
external retrieval and completion collaborators are passed in as explicit
outcome values so that failure paths are first-class.
-/

namespace CodeReviewBackend

namespace WorkoutApi

/-- JavaScript-style runtime value for loosely typed request-body fields,
restricted to the shapes these handlers inspect. -/
inductive JVal where
  | undef : JVal
  | jnull : JVal
  | jnum : Int → JVal
  | jstr : String → JVal
deriving DecidableEq

/-- JavaScript truthiness of a `JVal`: `undefined`, `null`, the number `0`
and the empty string are falsy; every other embedded value is truthy. -/
def truthy : JVal → Bool
  | .undef => false
  | .jnull => false
  | .jnum n => n != 0
  | .jstr s => s != ("")

/-- JavaScript `toString()` on the embedded values, used by the handlers via
`userId.toString()`. -/
def jsToString : JVal → String
  | .undef => ("undefined")
  | .jnull => ("null")
  | .jnum n => toString n
  | .jstr s => s

/-- One set of an exercise, from the `Set` interface shared by the handlers. -/
structure WSet where
  order : Int
  reps : Int
  weight : Int
deriving DecidableEq

/-- One exercise entry, from the `Exercise` interface shared by the handlers. -/
structure Exercise where
  exerciseId : String
  sets : List WSet
deriving DecidableEq

namespace SessionsLog

/-- Request body of the workout-session log handler, `RequestBody` in
`sessions/log.ts`. The `userId` field is typed `number` there but arrives as
an arbitrary JSON value at runtime, so it is embedded as a `JVal`; a missing
`exercises` field is `none`. -/
structure RequestBody where
  userId : JVal
  workoutTemplateId : Option Int
  exercises : Option (List Exercise)
deriving DecidableEq

/-- Incoming request: HTTP method plus parsed body. -/
structure Request where
  method : String
  body : RequestBody
deriving DecidableEq

/-- Database record created by `prisma.workoutSession.create`. -/
structure DbSession where
  userId : String
  workoutTemplateId : Option Int
  exercises : List Exercise
deriving DecidableEq

/-- Response of the log handler: HTTP status, the `error` field of the JSON
body when the body is an error object, the created record when the body is
the new session, and the list of database writes performed. -/
structure Response where
  status : Nat
  error : Option String
  record : Option DbSession
  writes : List DbSession
deriving DecidableEq

/-- The default-export handler of `sessions/log.ts`. Non-POST methods get
405; a falsy `userId` or missing `exercises` gets 400 before any database
call; otherwise the session is created (201) unless the database call throws,
which is modelled by the `dbOk` flag and yields 500 with no write. -/
def handler (req : Request) (dbOk : Bool) : Response :=
  if req.method ≠ ("POST") then ⟨405, some ("Method not allowed"), none, []⟩
  else if !truthy req.body.userId || req.body.exercises.isNone then
    ⟨400, some ("Missing fields"), none, []⟩
  else
    let exs := req.body.exercises.getD []
    if dbOk then
      let r : DbSession := ⟨jsToString req.body.userId, req.body.workoutTemplateId, exs⟩
      ⟨201, none, some r, [r]⟩
    else ⟨500, some ("Error logging workout"), none, []⟩

end SessionsLog

namespace TemplatesIndex

/-- A workout-template row as returned by `prisma.workoutTemplate.findMany`. -/
structure WorkoutTemplate where
  userId : String
  name : String
  exercises : List Exercise
deriving DecidableEq

/-- Response of the templates GET endpoint: status, optional `error` body
field, and the returned rows on the 200 path. -/
structure Response where
  status : Nat
  error : Option String
  rows : Option (List WorkoutTemplate)
deriving DecidableEq

/-- The `GET` function of the unnamed templates route file. The `userId`
query parameter is `none` when absent; `searchParams.get` yields `null` then,
and the guard `if (!userId)` also catches the empty string. The Prisma query
filters rows whose `userId` equals the parameter's string value; a throwing
query is modelled by `dbOk = false` and yields 500. -/
def GET (userIdParam : Option String) (db : List WorkoutTemplate) (dbOk : Bool) : Response :=
  match userIdParam with
  | none => ⟨400, some ("Missing userId"), none⟩
  | some u =>
    if u = ("") then ⟨400, some ("Missing userId"), none⟩
    else if dbOk then ⟨200, none, some (db.filter (fun t => t.userId == u))⟩
    else ⟨500, some ("Error fetching workout templates"), none⟩

/-- The default-export handler of the same file: non-GET methods get 405,
otherwise it delegates to `GET`. -/
def handler (method : String) (userIdParam : Option String) (db : List WorkoutTemplate)
    (dbOk : Bool) : Response :=
  if method ≠ ("GET") then ⟨405, some ("Method not allowed"), none⟩
  else GET userIdParam db dbOk

end TemplatesIndex

namespace TemplatesCreate

/-- Request body of the template create handler, `RequestBody` in
`templates/create/route.ts`; `userId` and `name` are strings there, and a
missing `exercises` field is `none`. -/
structure RequestBody where
  userId : String
  name : String
  exercises : Option (List Exercise)
deriving DecidableEq

/-- Database record created by `prisma.workoutTemplate.create`. -/
structure DbTemplate where
  name : String
  userId : String
  exercises : List Exercise
deriving DecidableEq

/-- Response of the create handler, with explicit database writes. -/
structure Response where
  status : Nat
  error : Option String
  record : Option DbTemplate
  writes : List DbTemplate
deriving DecidableEq

/-- The `POST` function of `templates/create/route.ts`: falsy `userId`,
falsy `name` or missing `exercises` gets 400 before any database call,
otherwise the template is created (201) unless the database call throws
(`dbOk = false`), which yields 500 with no write. -/
def POST (body : RequestBody) (dbOk : Bool) : Response :=
  if body.userId == ("") || body.name == ("") || body.exercises.isNone then
    ⟨400, some ("Missing fields"), none, []⟩
  else
    let exs := body.exercises.getD []
    if dbOk then
      let r : DbTemplate := ⟨body.name, body.userId, exs⟩
      ⟨201, none, some r, [r]⟩
    else ⟨500, some ("Error creating workout template"), none, []⟩

/-- The default-export handler of `templates/create/route.ts`: a non-POST
method gets a 405 response immediately and the `POST` logic is never entered;
otherwise the handler forwards the `POST` response status and body. -/
def handler (method : String) (body : RequestBody) (dbOk : Bool) : Response :=
  if method ≠ ("POST") then ⟨405, some ("Method not allowed"), none, []⟩
  else POST body dbOk

end TemplatesCreate

end WorkoutApi

namespace ReviewCore

/-- Modelled from the spec: the two interaction modes of the core (the core
implementation itself is absent from the repository snapshot; only the design
document and README describe it). -/
inductive Mode where
  | co_reviewer : Mode
  | interactive_assistant : Mode
deriving DecidableEq

/-- Modelled from the spec: recognition of the string-tagged mode field sent
by the frontend; exactly the two recognized values parse. -/
def parseMode (s : String) : Option Mode :=
  if s = ("co_reviewer") then some Mode.co_reviewer
  else if s = ("interactive_assistant") then some Mode.interactive_assistant
  else none

/-- Modelled from the spec: message roles. -/
inductive Role where
  | user : Role
  | assistant : Role
  | system : Role
deriving DecidableEq

/-- Modelled from the spec: a chat message with role, content, the source
references used to produce it, and a flag marking the structured multi-aspect
review summary message produced by the SummaryGenerator. Timestamps are
omitted; no claim concerns them. -/
structure Message where
  role : Role
  content : String
  sources : List String
  isSummary : Bool
deriving DecidableEq

/-- Modelled from the spec: a session, owning its PR identifier, mode,
monotonic summary-generated flag and ordered chat history. The opaque session
identifier and creation timestamp are omitted; no claim concerns them. -/
structure Session where
  prId : String
  mode : Mode
  summaryGenerated : Bool
  history : List Message
deriving DecidableEq

/-- Modelled from the spec: the error taxonomy of the core. -/
inductive CoreError where
  | invalidMode : CoreError
  | invalidPr : CoreError
  | sessionNotFound : CoreError
  | indexUnavailable : CoreError
  | upstreamTimeout : CoreError
  | rateLimited : CoreError
  | summaryGenerationFailed : CoreError
deriving DecidableEq

/-- Modelled from the spec: `createSession(prId, mode)` returns a new session
with empty history and summary-generated false; an unrecognized mode fails
with `InvalidMode` and an empty prId fails with `InvalidPr` (the spec states
the mode check first). -/
def createSession (prId : String) (modeStr : String) : Except CoreError Session :=
  match parseMode modeStr with
  | none => Except.error CoreError.invalidMode
  | some m =>
    if prId = ("") then Except.error CoreError.invalidPr
    else Except.ok ⟨prId, m, false, []⟩

/-- Modelled from the spec: the three per-PR context partitions. -/
inductive Partition where
  | pr : Partition
  | reqs : Partition
  | code : Partition
deriving DecidableEq

/-- Modelled from the spec: the partition priority order used to break
relevance ties, `pr > reqs > code` (lower number means higher priority). -/
def prioOf : Partition → Nat
  | .pr => 0
  | .reqs => 1
  | .code => 2

/-- Modelled from the spec: a retrieved chunk as delivered by the external
EmbeddingRetriever for one partition: source locator, text payload and
relevance score (a comparator-only numeric, embedded as an integer). -/
structure RawChunk where
  locator : String
  payload : String
  score : Int
deriving DecidableEq

/-- Modelled from the spec: a ContextChunk of the context bundle, carrying
its originating partition. -/
structure ContextChunk where
  part : Partition
  locator : String
  payload : String
  score : Int
deriving DecidableEq

/-- Attach the originating partition to a retrieved chunk. -/
def tagChunk (p : Partition) (c : RawChunk) : ContextChunk :=
  ⟨p, c.locator, c.payload, c.score⟩

/-- A context chunk tagged with its partition priority and its position in
the original per-partition retrieval order, the data the merge step ranks
by. -/
structure Tagged where
  chunk : ContextChunk
  prio : Nat
  idx : Nat
deriving DecidableEq

/-- Tag one partition's retrieval result with priorities and retrieval
positions. -/
def tagList (p : Partition) (l : List RawChunk) : List Tagged :=
  l.enum.map (fun e => ⟨tagChunk p e.2, prioOf p, e.1⟩)

/-- All three partitions' results, tagged. -/
def tagAll (prs reqss codes : List RawChunk) : List Tagged :=
  tagList Partition.pr prs ++ tagList Partition.reqs reqss ++ tagList Partition.code codes

/-- Modelled from the spec: the merge ranking of the ContextRouter; `a`
precedes `b` when its relevance score is higher, with ties broken first by
partition priority `pr > reqs > code` and then by original retrieval
order. -/
def mergeLe (a b : Tagged) : Bool :=
  (decide (b.chunk.score < a.chunk.score)) ||
    ((decide (a.chunk.score = b.chunk.score)) &&
      ((decide (a.prio < b.prio)) || ((decide (a.prio = b.prio)) && (decide (a.idx ≤ b.idx)))))

/-- Deduplication by source locator, keeping the first (highest ranked)
occurrence; `seen` accumulates locators already emitted. -/
def dedupByLocator (seen : List String) : List Tagged → List Tagged
  | [] => []
  | x :: xs =>
    if x.chunk.locator ∈ seen then dedupByLocator seen xs
    else x :: dedupByLocator (x.chunk.locator :: seen) xs

/-- Modelled from the spec: the merge step of the ContextRouter over the
tagged per-partition results: rank by `mergeLe`, deduplicate by source
locator, and bound the bundle to the configured top-k maximum count. -/
def routeMerged (k : Nat) (prs reqss codes : List RawChunk) : List Tagged :=
  (dedupByLocator [] ((tagAll prs reqss codes).mergeSort mergeLe)).take k

/-- Modelled from the spec: the ordered context bundle output by the
ContextRouter. -/
def routerBundle (k : Nat) (prs reqss codes : List RawChunk) : List ContextChunk :=
  (routeMerged k prs reqss codes).map (fun t => t.chunk)

/-- Modelled from the spec: a loaded per-PR ContextStore with its three
partitions, read-only after load. -/
structure ContextStore where
  prId : String
  prData : List RawChunk
  codeData : List RawChunk
  reqsData : List RawChunk
deriving DecidableEq

namespace IndexCache

/-- Modelled from the spec: the IndexCache state. `loaded` maps PR
identifiers to their loaded ContextStore; `inflight` maps each PR identifier
with a load in flight to the requesters waiting on that single load. -/
structure CacheState where
  loaded : List (String × ContextStore)
  inflight : List (String × List Nat)
deriving DecidableEq

/-- Modelled from the spec: the observable events of `getOrLoad` under
concurrency. A `request` is one requester (identified by a numeral) calling
`getOrLoad prId`; `complete` is the single underlying load for `prId`
finishing with a ContextStore or with a failure. -/
inductive CacheEvent where
  | request : String → Nat → CacheEvent
  | complete : String → Except CoreError ContextStore → CacheEvent

/-- Result of one cache transition: the new state, the results delivered to
requesters by this transition, and how many underlying loads this transition
started (zero or one). -/
structure CacheStep where
  state : CacheState
  deliveries : List (Nat × Except CoreError ContextStore)
  loadsStarted : Nat

/-- Append a waiter to the in-flight entry of `p`. -/
def addWaiter : List (String × List Nat) → String → Nat → List (String × List Nat)
  | [], p, r => [(p, [r])]
  | (q, ws) :: rest, p, r =>
    if q = p then (q, ws ++ [r]) :: rest else (q, ws) :: addWaiter rest p r

/-- Remove every in-flight entry keyed by `p`. -/
def removeKey : List (String × List Nat) → String → List (String × List Nat)
  | [], _ => []
  | (q, ws) :: rest, p =>
    if q = p then removeKey rest p else (q, ws) :: removeKey rest p

/-- Modelled from the spec: one transition of the IndexCache. A request for a
loaded identifier is answered immediately from the cache; a request for an
identifier with a load already in flight joins the waiters of that load and
starts nothing; a request for an unknown identifier starts the single load.
A completing load delivers its result, success or failure, to every waiter;
a successful store is cached, a failure is not cached. -/
def step (st : CacheState) : CacheEvent → CacheStep
  | .request p r =>
    match List.lookup p st.loaded with
    | some store => ⟨st, [(r, Except.ok store)], 0⟩
    | none =>
      match List.lookup p st.inflight with
      | some _ => ⟨⟨st.loaded, addWaiter st.inflight p r⟩, [], 0⟩
      | none => ⟨⟨st.loaded, (p, [r]) :: st.inflight⟩, [], 1⟩
  | .complete p res =>
    let ws := (List.lookup p st.inflight).getD []
    let newLoaded :=
      match res with
      | .ok s => (p, s) :: st.loaded
      | .error _ => st.loaded
    ⟨⟨newLoaded, removeKey st.inflight p⟩, ws.map (fun r => (r, res)), 0⟩

end IndexCache

/-- Modelled from the spec: the outcomes of the two external collaborators
used during one `handleQuery` call: the retrieval step (the EmbeddingRetriever
queried per partition, possibly failing with `IndexUnavailable` or a timeout)
delivering the three partitions' chunk lists, and the completion step (the
CompletionClient, possibly failing with `UpstreamTimeout` or `RateLimited`). -/
structure ExtCall where
  retrieval : Except CoreError (List RawChunk × List RawChunk × List RawChunk)
  completion : Except CoreError String

/-- Modelled from the spec: one append-only log entry, written as a side
effect of every exchange: PR identifier, mode, query and response (the
optional timestamp and the session identifier are omitted; no claim concerns
them). -/
structure LogEntry where
  prId : String
  mode : Mode
  query : String
  response : String
deriving DecidableEq

/-- Result of one `handleQuery` call: the session after the call, the reply
or error surfaced to the caller, and the log entries appended by the call. -/
structure QueryResult where
  session : Session
  reply : Except CoreError Message
  log : List LogEntry

/-- Modelled from the spec: the ModeController gate; a session is in
`SummaryPending` exactly when it is a `co_reviewer` session whose summary has
not yet been generated. -/
def summaryPending (s : Session) : Bool :=
  s.mode == Mode.co_reviewer && !s.summaryGenerated

/-- Modelled from the spec: the sentinel query string logged for the
internally generated co-reviewer summary exchange. -/
def sentinelQuery : String :=
  ("session start")

/-- Modelled from the spec: one serialized `handleQuery` call against one
session. In `SummaryPending` the automatic summary is produced before any
user reply: the router queries all three partitions, the completion produces
the structured summary, which is appended as the first history message and
the summary-generated flag is set; on a retrieval or completion failure the
session is unchanged (`SummaryGenerationFailed`, flag stays false, no partial
append). Outside `SummaryPending` the router retrieves context, the
completion produces the assistant reply, and the user/assistant exchange pair
is appended; on failure the error is surfaced and the session is unchanged.
Every call produces exactly one log entry, with the sentinel query on the
summary path. -/
def handleQuery (k : Nat) (s : Session) (q : String) (ext : ExtCall) : QueryResult :=
  if summaryPending s then
    match ext.retrieval, ext.completion with
    | .error _, _ =>
      ⟨s, Except.error CoreError.summaryGenerationFailed, [⟨s.prId, s.mode, sentinelQuery, ("")⟩]⟩
    | .ok _, .error _ =>
      ⟨s, Except.error CoreError.summaryGenerationFailed, [⟨s.prId, s.mode, sentinelQuery, ("")⟩]⟩
    | .ok (prs, reqss, codes), .ok text =>
      let bundle := routerBundle k prs reqss codes
      let msg : Message := ⟨Role.assistant, text, bundle.map (fun c => c.locator), true⟩
      ⟨⟨s.prId, s.mode, true, s.history ++ [msg]⟩, Except.ok msg,
        [⟨s.prId, s.mode, sentinelQuery, text⟩]⟩
  else
    match ext.retrieval, ext.completion with
    | .error e, _ => ⟨s, Except.error e, [⟨s.prId, s.mode, q, ("")⟩]⟩
    | .ok _, .error e => ⟨s, Except.error e, [⟨s.prId, s.mode, q, ("")⟩]⟩
    | .ok (prs, reqss, codes), .ok text =>
      let bundle := routerBundle k prs reqss codes
      let userMsg : Message := ⟨Role.user, q, [], false⟩
      let asstMsg : Message := ⟨Role.assistant, text, bundle.map (fun c => c.locator), false⟩
      ⟨⟨s.prId, s.mode, s.summaryGenerated, s.history ++ [userMsg, asstMsg]⟩,
        Except.ok asstMsg, [⟨s.prId, s.mode, q, text⟩]⟩

/-- A serialized sequence of `handleQuery` calls against one session; per the
spec, access to a single session's mutable state is serialized, so any set of
concurrent calls for one session is observed as some such sequence. -/
def runQueries (k : Nat) (s : Session) : List (String × ExtCall) → Session
  | [] => s
  | (q, e) :: rest => runQueries k (handleQuery k s q e).session rest

/-- An external-call outcome in which both collaborators fail. -/
def failCall : ExtCall :=
  ⟨Except.error CoreError.upstreamTimeout, Except.error CoreError.upstreamTimeout⟩

/-- An external-call outcome in which both collaborators succeed (with empty
retrieval results). -/
def okCall : ExtCall :=
  ⟨Except.ok ([], [], []), Except.ok ("fine")⟩

/-- The shape invariant behind the single-summary property: a co-reviewer
session either has not generated its summary and has an empty history, or has
generated it and its history starts with the summary message followed only by
non-summary messages. -/
def summaryShape (s : Session) : Prop :=
  (s.summaryGenerated = false ∧ s.history = []) ∨
    (s.summaryGenerated = true ∧
      ∃ m t, s.history = m :: t ∧ m.isSummary = true ∧ ∀ x ∈ t, x.isSummary = false)

end ReviewCore

namespace WorkoutApi

/-- C8: every POST request to the workout-session log handler whose body has
a falsy userId (absent or the number 0) or a missing exercises field is
answered with status 400 and error body Missing fields, and no database
write is performed; in particular userId equal to 0 is rejected as missing
despite being a present numeric value. -/
theorem log_missing_fields (req : SessionsLog.Request) (dbOk : Bool)
    (hm : req.method = ("POST"))
    (hf : truthy req.body.userId = false ∨ req.body.exercises = none) :
    SessionsLog.handler req dbOk = ⟨400, some ("Missing fields"), none, []⟩ := by
  unfold SessionsLog.handler
  rcases hf with hf | hf <;> simp [hm, hf]

/-- Witness for C8 at a concrete request with the present numeric value 0 as
userId: the field is falsy, the response is the 400 error and no write
happens. -/
theorem log_missing_fields_witness :
    truthy (JVal.jnum 0) = false ∧
      SessionsLog.handler ⟨("POST"), ⟨JVal.jnum 0, none, some []⟩⟩ true
        = ⟨400, some ("Missing fields"), none, []⟩ :=
  ⟨by decide,
    log_missing_fields ⟨("POST"), ⟨JVal.jnum 0, none, some []⟩⟩ true rfl (Or.inl (by decide))⟩

/-- C9: the workout-templates GET endpoint answers 400 with error Missing
userId when the userId query parameter is absent, and every row of a 200
response belongs to exactly the requested userId, because the query filters
on equality with the parameter's string value. -/
theorem templates_get_scoped (userIdParam : Option String)
    (db : List TemplatesIndex.WorkoutTemplate) (dbOk : Bool) :
    (userIdParam = none →
      TemplatesIndex.GET userIdParam db dbOk = ⟨400, some ("Missing userId"), none⟩) ∧
    (∀ u, userIdParam = some u →
      (TemplatesIndex.GET userIdParam db dbOk).status = 200 →
      ((TemplatesIndex.GET userIdParam db dbOk).rows.getD []).all
        (fun t => t.userId == u) = true) := by
  constructor
  · intro h
    subst h
    rfl
  · intro u h hs
    subst h
    by_cases he : u = ("")
    · simp [TemplatesIndex.GET, he] at hs
    · by_cases hd : dbOk
      · simp only [TemplatesIndex.GET, he, hd, if_false, if_true, Option.getD_some,
          List.all_eq_true]
        intro x hx
        exact (List.mem_filter.mp hx).2
      · simp [TemplatesIndex.GET, he, hd] at hs

/-- Witness for C9: the absent-parameter case answers 400, and a concrete
two-user table queried for user u1 yields only rows of u1. -/
theorem templates_get_scoped_witness :
    TemplatesIndex.GET none [] true = ⟨400, some ("Missing userId"), none⟩ ∧
      ((TemplatesIndex.GET (some ("u1"))
          [⟨("u1"), ("a"), []⟩, ⟨("u2"), ("b"), []⟩] true).rows.getD []).all
        (fun t => t.userId == ("u1")) = true :=
  ⟨(templates_get_scoped none [] true).1 rfl,
    (templates_get_scoped (some ("u1")) [⟨("u1"), ("a"), []⟩, ⟨("u2"), ("b"), []⟩] true).2
      ("u1") rfl (by decide)⟩

/-- C10: every request to the workout-template create default handler whose
method is not POST is answered with status 405 and error Method not allowed,
the POST logic is not entered and no database record is created. -/
theorem create_handler_method_gate (method : String) (body : TemplatesCreate.RequestBody)
    (dbOk : Bool) (h : method ≠ ("POST")) :
    TemplatesCreate.handler method body dbOk = ⟨405, some ("Method not allowed"), none, []⟩ := by
  unfold TemplatesCreate.handler
  simp [h]

/-- Witness for C10 at a concrete GET request: the 405 response with no
database write. -/
theorem create_handler_method_gate_witness :
    (("GET") : String) ≠ ("POST") ∧
      TemplatesCreate.handler ("GET") ⟨("u"), ("n"), some []⟩ true
        = ⟨405, some ("Method not allowed"), none, []⟩ :=
  ⟨by decide, create_handler_method_gate ("GET") ⟨("u"), ("n"), some []⟩ true (by decide)⟩

end WorkoutApi

namespace ReviewCore

/-- A successful `createSession` returns a session carrying the given prId,
the parsed mode, a false summary-generated flag and an empty history. -/
theorem createSession_ok (prId mstr : String) (s : Session)
    (hc : createSession prId mstr = Except.ok s) :
    parseMode mstr = some s.mode ∧ s = ⟨prId, s.mode, false, []⟩ := by
  unfold createSession at hc
  rcases hm : parseMode mstr with _ | m <;> rw [hm] at hc
  · simp at hc
  · by_cases hp : prId = ("")
    · simp [hp] at hc
    · simp [hp] at hc
      subst hc
      exact ⟨rfl, rfl⟩

/-- One `handleQuery` call never changes the session's mode. -/
theorem handleQuery_mode (k : Nat) (s : Session) (q : String) (ext : ExtCall) :
    (handleQuery k s q ext).session.mode = s.mode := by
  cases hp : summaryPending s <;>
    rcases hr : ext.retrieval with e1 | ⟨prs, reqss, codes⟩ <;>
    rcases hc : ext.completion with e2 | text <;>
    simp [handleQuery, hp, hr, hc]

/-- No sequence of `handleQuery` calls changes the session's mode. -/
theorem runQueries_mode (k : Nat) (L : List (String × ExtCall)) :
    ∀ s : Session, (runQueries k s L).mode = s.mode := by
  induction L with
  | nil => intro s; rfl
  | cons p rest ih =>
    intro s
    rcases p with ⟨q, e⟩
    show (runQueries k (handleQuery k s q e).session rest).mode = s.mode
    rw [ih, handleQuery_mode]

/-- C4: createSession returns a new session with empty history and a false
summary-generated flag when the mode is one of the two recognized values and
the prId is non-empty; it fails with InvalidMode for every unrecognized mode,
and fails with InvalidPr for every empty prId with a recognized mode (the
mode check is performed first, following the spec's order). -/
theorem createSession_spec (prId mstr : String) :
    (mstr ≠ ("co_reviewer") → mstr ≠ ("interactive_assistant") →
      createSession prId mstr = Except.error CoreError.invalidMode) ∧
    (∀ m, parseMode mstr = some m → prId = ("") →
      createSession prId mstr = Except.error CoreError.invalidPr) ∧
    (∀ m, parseMode mstr = some m → prId ≠ ("") →
      createSession prId mstr = Except.ok ⟨prId, m, false, []⟩) := by
  refine ⟨?_, ?_, ?_⟩
  · intro h1 h2
    simp [createSession, parseMode, h1, h2]
  · intro m hm hp
    simp [createSession, hm, hp]
  · intro m hm hp
    simp [createSession, hm, hp]

/-- Witness for C4: a bogus mode fails with InvalidMode, an empty prId with a
recognized mode fails with InvalidPr, and a recognized mode with a non-empty
prId yields the fresh session. -/
theorem createSession_spec_witness :
    createSession ("p1") ("bogus") = Except.error CoreError.invalidMode ∧
      createSession ("") ("co_reviewer") = Except.error CoreError.invalidPr ∧
      createSession ("p1") ("interactive_assistant")
        = Except.ok ⟨("p1"), Mode.interactive_assistant, false, []⟩ :=
  ⟨(createSession_spec ("p1") ("bogus")).1 (by decide) (by decide),
    (createSession_spec ("") ("co_reviewer")).2.1 Mode.co_reviewer rfl rfl,
    (createSession_spec ("p1") ("interactive_assistant")).2.2 Mode.interactive_assistant rfl
      (by decide)⟩

/-- C2: the mode observed after createSession equals the mode supplied at
creation, and no sequence of subsequent handleQuery calls changes it. -/
theorem mode_immutable (k : Nat) (prId mstr : String) (s : Session)
    (L : List (String × ExtCall)) (hc : createSession prId mstr = Except.ok s) :
    parseMode mstr = some s.mode ∧ (runQueries k s L).mode = s.mode :=
  ⟨(createSession_ok prId mstr s hc).1, runQueries_mode k L s⟩

/-- Witness for C2 at a concrete co-reviewer session and a two-call run. -/
theorem mode_immutable_witness :
    parseMode ("co_reviewer") = some (Session.mk ("p1") Mode.co_reviewer false []).mode ∧
      (runQueries 3 (Session.mk ("p1") Mode.co_reviewer false [])
          [(("hi"), okCall), (("more"), failCall)]).mode
        = (Session.mk ("p1") Mode.co_reviewer false []).mode :=
  mode_immutable 3 ("p1") ("co_reviewer") (Session.mk ("p1") Mode.co_reviewer false [])
    [(("hi"), okCall), (("more"), failCall)] rfl

/-- C3: a handleQuery call whose retrieval or completion step fails leaves
the session, in particular its chat history length and contents, completely
unchanged: no partial message is appended, so the failed attempt leaves no
trace at the history level. -/
theorem failed_call_no_trace (k : Nat) (s : Session) (q : String) (ext : ExtCall)
    (e : CoreError)
    (h : ext.retrieval = Except.error e ∨ ext.completion = Except.error e) :
    (handleQuery k s q ext).session.history = s.history ∧
      (handleQuery k s q ext).session = s := by
  have hs : (handleQuery k s q ext).session = s := by
    cases hp : summaryPending s <;>
      rcases hr : ext.retrieval with e1 | ⟨prs, reqss, codes⟩ <;>
      rcases hc : ext.completion with e2 | text <;>
      simp [handleQuery, hp, hr, hc] <;>
      rcases h with h | h <;> simp_all
  exact ⟨by rw [hs], hs⟩

/-- Witness for C3 at a concrete session and a failing completion call. -/
theorem failed_call_no_trace_witness :
    (handleQuery 3 (Session.mk ("p1") Mode.interactive_assistant false
          [⟨Role.user, ("hey"), [], false⟩]) ("next") failCall).session.history
        = [⟨Role.user, ("hey"), [], false⟩] ∧
      (handleQuery 3 (Session.mk ("p1") Mode.interactive_assistant false
          [⟨Role.user, ("hey"), [], false⟩]) ("next") failCall).session
        = Session.mk ("p1") Mode.interactive_assistant false [⟨Role.user, ("hey"), [], false⟩] :=
  failed_call_no_trace 3
    (Session.mk ("p1") Mode.interactive_assistant false [⟨Role.user, ("hey"), [], false⟩])
    ("next") failCall CoreError.upstreamTimeout (Or.inl rfl)

/-- C7: every handleQuery call appends exactly one LogEntry; on the
internally generated co-reviewer summary path the entry's query field is the
sentinel string, and on the normal path it is the user's query. -/
theorem handleQuery_logs_once (k : Nat) (s : Session) (q : String) (ext : ExtCall) :
    (handleQuery k s q ext).log.length = 1 ∧
      (summaryPending s = true →
        (handleQuery k s q ext).log.map (fun e => e.query) = [sentinelQuery]) ∧
      (summaryPending s = false →
        (handleQuery k s q ext).log.map (fun e => e.query) = [q]) := by
  cases hp : summaryPending s <;>
    rcases hr : ext.retrieval with e1 | ⟨prs, reqss, codes⟩ <;>
    rcases hc : ext.completion with e2 | text <;>
    simp [handleQuery, hp, hr, hc]

/-- Witness for C7 on the summary path of a fresh co-reviewer session: one
log entry whose query field is the sentinel. -/
theorem handleQuery_logs_once_witness :
    (handleQuery 2 (Session.mk ("p1") Mode.co_reviewer false []) ("hi") okCall).log.length = 1 ∧
      (handleQuery 2 (Session.mk ("p1") Mode.co_reviewer false []) ("hi") okCall).log.map
          (fun e => e.query) = [sentinelQuery] :=
  ⟨(handleQuery_logs_once 2 (Session.mk ("p1") Mode.co_reviewer false []) ("hi") okCall).1,
    (handleQuery_logs_once 2 (Session.mk ("p1") Mode.co_reviewer false []) ("hi") okCall).2.1
      rfl⟩

/-- One `handleQuery` call preserves the summary shape invariant of a
co-reviewer session. -/
theorem handleQuery_summaryShape (k : Nat) (s : Session) (q : String) (ext : ExtCall)
    (hm : s.mode = Mode.co_reviewer) (h : summaryShape s) :
    summaryShape (handleQuery k s q ext).session := by
  have hpend : summaryPending s = !s.summaryGenerated := by
    simp [summaryPending, hm]
  cases hg : s.summaryGenerated
  case false =>
    have hist : s.history = [] := by
      rcases h with ⟨_, hh⟩ | ⟨hgen, _⟩
      · exact hh
      · rw [hg] at hgen
        cases hgen
    rcases hr : ext.retrieval with e1 | ⟨prs, reqss, codes⟩
    · have hres : (handleQuery k s q ext).session = s := by
        simp [handleQuery, hpend, hg, hr]
      rw [hres]
      exact h
    · rcases hc : ext.completion with e2 | text
      · have hres : (handleQuery k s q ext).session = s := by
          simp [handleQuery, hpend, hg, hr, hc]
        rw [hres]
        exact h
      · have hres : (handleQuery k s q ext).session
            = ⟨s.prId, s.mode, true, s.history ++
                [⟨Role.assistant, text,
                  (routerBundle k prs reqss codes).map (fun c => c.locator), true⟩]⟩ := by
          simp [handleQuery, hpend, hg, hr, hc]
        rw [hres, hist]
        exact Or.inr ⟨rfl, _, [], rfl, rfl, by simp⟩
  case true =>
    have hpf : summaryPending s = false := by rw [hpend, hg]; rfl
    rcases h with ⟨hgen, _⟩ | ⟨_, m, t, hh, hms, ht⟩
    · rw [hg] at hgen
      cases hgen
    · rcases hr : ext.retrieval with e1 | ⟨prs, reqss, codes⟩
      · have hres : (handleQuery k s q ext).session = s := by
          simp [handleQuery, hpf, hr]
        rw [hres]
        exact Or.inr ⟨hg, m, t, hh, hms, ht⟩
      · rcases hc : ext.completion with e2 | text
        · have hres : (handleQuery k s q ext).session = s := by
            simp [handleQuery, hpf, hr, hc]
          rw [hres]
          exact Or.inr ⟨hg, m, t, hh, hms, ht⟩
        · have hres : (handleQuery k s q ext).session
              = ⟨s.prId, s.mode, s.summaryGenerated, s.history ++
                  [⟨Role.user, q, [], false⟩,
                    ⟨Role.assistant, text,
                      (routerBundle k prs reqss codes).map (fun c => c.locator), false⟩]⟩ := by
            simp [handleQuery, hpf, hr, hc]
          rw [hres, hh]
          refine Or.inr ⟨hg, m, t ++ [⟨Role.user, q, [], false⟩,
            ⟨Role.assistant, text,
              (routerBundle k prs reqss codes).map (fun c => c.locator), false⟩], by simp, hms, ?_⟩
          intro x hx
          rcases List.mem_append.mp hx with hx | hx
          · exact ht x hx
          · rcases List.mem_cons.mp hx with hx | hx
            · rw [hx]
            · rw [List.mem_singleton.mp hx]
  /- end of case analysis -/

/-- Any serialized sequence of `handleQuery` calls preserves the summary
shape invariant of a co-reviewer session. -/
theorem runQueries_summaryShape (k : Nat) (L : List (String × ExtCall)) :
    ∀ s : Session, s.mode = Mode.co_reviewer → summaryShape s →
      summaryShape (runQueries k s L) := by
  induction L with
  | nil =>
    intro s _ h
    exact h
  | cons p rest ih =>
    intro s hm h
    rcases p with ⟨q, e⟩
    show summaryShape (runQueries k (handleQuery k s q e).session rest)
    exact ih _ (by rw [handleQuery_mode, hm]) (handleQuery_summaryShape k s q e hm h)

/-- C1 (amended): for a session created in co-reviewer mode, after any
serialized sequence of handleQuery calls the history contains at most one
summary-type message, exactly one as soon as the history is non-empty, and
any summary message is the first message (its tail contains none). The
original claim of unconditionally exactly one summary message fails when all
calls so far have failed: the spec keeps the summary-generated flag false and
appends nothing on a summary generation failure, so the history is still
empty and contains no summary message. -/
theorem coReviewer_single_summary (k : Nat) (prId mstr : String) (s : Session)
    (L : List (String × ExtCall)) (hc : createSession prId mstr = Except.ok s)
    (hm : s.mode = Mode.co_reviewer) :
    ((runQueries k s L).history.countP (fun m => m.isSummary)
        = if (runQueries k s L).history = [] then 0 else 1) ∧
      (runQueries k s L).history.tail.countP (fun m => m.isSummary) = 0 := by
  have h0 : summaryShape s := by
    rcases createSession_ok prId mstr s hc with ⟨_, hs⟩
    rw [hs]
    exact Or.inl ⟨rfl, rfl⟩
  have h := runQueries_summaryShape k L s hm h0
  rcases h with ⟨_, hh⟩ | ⟨_, m, t, hh, hms, ht⟩
  · rw [hh]
    simp
  · rw [hh]
    have htz : t.countP (fun x => x.isSummary) = 0 :=
      List.countP_eq_zero.mpr (fun x hx => by simp [ht x hx])
    constructor
    · simp [List.countP_cons, hms, htz]
    · simpa using htz

/-- Witness for C1 (amended) on a successful first call followed by a failed
call: the history has one message, exactly one summary, and none in the
tail. -/
theorem coReviewer_single_summary_witness :
    ((runQueries 2 (Session.mk ("p1") Mode.co_reviewer false [])
          [(("go"), okCall), (("next"), failCall)]).history.countP (fun m => m.isSummary)
        = if (runQueries 2 (Session.mk ("p1") Mode.co_reviewer false [])
              [(("go"), okCall), (("next"), failCall)]).history = [] then 0 else 1) ∧
      (runQueries 2 (Session.mk ("p1") Mode.co_reviewer false [])
          [(("go"), okCall), (("next"), failCall)]).history.tail.countP
        (fun m => m.isSummary) = 0 :=
  coReviewer_single_summary 2 ("p1") ("co_reviewer")
    (Session.mk ("p1") Mode.co_reviewer false [])
    [(("go"), okCall), (("next"), failCall)] rfl rfl

/-- Counterexample to C1 as stated: a co-reviewer session fresh from
createSession, after one handleQuery call whose external calls fail, has an
empty history containing zero summary-type messages, not exactly one. -/
theorem coReviewer_single_summary_cex :
    createSession ("pr_1") ("co_reviewer")
        = Except.ok ⟨("pr_1"), Mode.co_reviewer, false, []⟩ ∧
      (runQueries 5 ⟨("pr_1"), Mode.co_reviewer, false, []⟩
          [(("hello"), failCall)]).history.countP (fun m => m.isSummary) = 0 :=
  ⟨rfl, rfl⟩

/-- The merge ranking is transitive. -/
theorem mergeLe_trans : ∀ a b c : Tagged, mergeLe a b = true → mergeLe b c = true →
    mergeLe a c = true := by
  intro a b c h1 h2
  simp only [mergeLe, Bool.or_eq_true, Bool.and_eq_true, decide_eq_true_eq] at h1 h2 ⊢
  omega

/-- The merge ranking is total. -/
theorem mergeLe_total : ∀ a b : Tagged, mergeLe a b || mergeLe b a := by
  intro a b
  simp only [mergeLe, Bool.or_eq_true, Bool.and_eq_true, decide_eq_true_eq]
  omega

/-- Deduplication produces a sublist of its input. -/
theorem dedupByLocator_sublist : ∀ (seen : List String) (l : List Tagged),
    (dedupByLocator seen l).Sublist l := by
  intro seen l
  induction l generalizing seen with
  | nil => simp [dedupByLocator]
  | cons x xs ih =>
    simp only [dedupByLocator]
    by_cases hcond : x.chunk.locator ∈ seen
    · rw [if_pos hcond]
      exact (ih seen).cons x
    · rw [if_neg hcond]
      exact (ih _).cons₂ x

/-- No element surviving deduplication has a locator in the seen
accumulator. -/
theorem dedupByLocator_not_seen : ∀ (seen : List String) (l : List Tagged) (x : Tagged),
    x ∈ dedupByLocator seen l → x.chunk.locator ∉ seen := by
  intro seen l
  induction l generalizing seen with
  | nil =>
    intro x hx
    simp [dedupByLocator] at hx
  | cons y ys ih =>
    intro x hx
    simp only [dedupByLocator] at hx
    by_cases hcond : y.chunk.locator ∈ seen
    · rw [if_pos hcond] at hx
      exact ih seen x hx
    · rw [if_neg hcond] at hx
      rcases List.mem_cons.mp hx with h | h
      · rw [h]
        exact hcond
      · intro hs
        exact ih (y.chunk.locator :: seen) x h (List.mem_cons_of_mem _ hs)

/-- The locators surviving deduplication are pairwise distinct. -/
theorem dedupByLocator_locators_nodup : ∀ (seen : List String) (l : List Tagged),
    ((dedupByLocator seen l).map (fun t => t.chunk.locator)).Nodup := by
  intro seen l
  induction l generalizing seen with
  | nil => simp [dedupByLocator]
  | cons y ys ih =>
    simp only [dedupByLocator]
    by_cases hcond : y.chunk.locator ∈ seen
    · rw [if_pos hcond]
      exact ih seen
    · rw [if_neg hcond]
      simp only [List.map_cons, List.nodup_cons]
      refine ⟨?_, ih _⟩
      intro hmem
      rcases List.mem_map.mp hmem with ⟨x, hx, hloc⟩
      exact dedupByLocator_not_seen _ _ x hx (by rw [hloc]; exact List.mem_cons_self _ _)

/-- C5: the ContextRouter's output bundle is bounded by the configured top-k
maximum count, deduplicated by source locator, and ordered by relevance score
descending with ties broken first by partition priority (pr before reqs
before code, encoded in the prio tag by tagAll) and then by original
retrieval order (the idx tag); the bundle is the chunk projection of this
deterministically merged list. -/
theorem router_bundle_spec (k : Nat) (prs reqss codes : List RawChunk) :
    (routerBundle k prs reqss codes).length ≤ k ∧
      ((routeMerged k prs reqss codes).map (fun t => t.chunk.locator)).Nodup ∧
      (routeMerged k prs reqss codes).Pairwise (fun a b =>
        b.chunk.score < a.chunk.score ∨ (a.chunk.score = b.chunk.score ∧
          (a.prio < b.prio ∨ (a.prio = b.prio ∧ a.idx ≤ b.idx)))) ∧
      routerBundle k prs reqss codes = (routeMerged k prs reqss codes).map (fun t => t.chunk) := by
  refine ⟨?_, ?_, ?_, rfl⟩
  · simp only [routerBundle, routeMerged, List.length_map]
    exact List.length_take_le k _
  · have hsub : ((routeMerged k prs reqss codes).map (fun t => t.chunk.locator)).Sublist
        ((dedupByLocator [] ((tagAll prs reqss codes).mergeSort mergeLe)).map
          (fun t => t.chunk.locator)) :=
      (List.take_sublist k _).map _
    exact (dedupByLocator_locators_nodup [] _).sublist hsub
  · have hs : ((tagAll prs reqss codes).mergeSort mergeLe).Pairwise
        (fun a b => mergeLe a b = true) :=
      List.sorted_mergeSort mergeLe_trans mergeLe_total _
    have hsub : (routeMerged k prs reqss codes).Sublist
        ((tagAll prs reqss codes).mergeSort mergeLe) :=
      (List.take_sublist k _).trans (dedupByLocator_sublist [] _)
    refine (List.Pairwise.sublist hsub hs).imp ?_
    intro a b h
    simpa only [mergeLe, Bool.or_eq_true, Bool.and_eq_true, decide_eq_true_eq] using h

/-- A key that fails lookup is not among the keys of an association list. -/
theorem lookup_none_not_mem_keys {β : Type} (p : String) (l : List (String × β))
    (h : List.lookup p l = none) : p ∉ l.map Prod.fst := by
  induction l with
  | nil => simp
  | cons e rest ih =>
    rcases e with ⟨q, b⟩
    rw [List.lookup_cons] at h
    cases hpq : p == q
    · rw [hpq] at h
      simp only [List.map_cons, List.mem_cons]
      rintro (hq | hq)
      · rw [hq] at hpq
        simp at hpq
      · exact ih h hq
    · rw [hpq] at h
      cases h

/-- Appending a waiter to a present in-flight entry does not change the set
of in-flight keys. -/
theorem addWaiter_keys (p : String) (l : List (String × List Nat)) (r : Nat)
    (ws : List Nat) (h : List.lookup p l = some ws) :
    (IndexCache.addWaiter l p r).map Prod.fst = l.map Prod.fst := by
  induction l with
  | nil => cases h
  | cons e rest ih =>
    rcases e with ⟨q, ws2⟩
    simp only [IndexCache.addWaiter]
    by_cases hqp : q = p
    · rw [if_pos hqp]
      simp
    · rw [if_neg hqp]
      rw [List.lookup_cons] at h
      have hpq : (p == q) = false := by
        simp only [beq_eq_false_iff_ne, ne_eq]
        intro hh
        exact hqp hh.symm
      rw [hpq] at h
      simp only [List.map_cons, List.cons.injEq, true_and]
      exact ih h

/-- Removing a key yields a sublist of the association list. -/
theorem removeKey_sublist (l : List (String × List Nat)) (p : String) :
    (IndexCache.removeKey l p).Sublist l := by
  induction l with
  | nil => simp [IndexCache.removeKey]
  | cons e rest ih =>
    rcases e with ⟨q, ws⟩
    simp only [IndexCache.removeKey]
    by_cases hqp : q = p
    · rw [if_pos hqp]
      exact ih.cons _
    · rw [if_neg hqp]
      exact ih.cons₂ _

/-- After removing a key, looking it up fails. -/
theorem lookup_removeKey_self (l : List (String × List Nat)) (p : String) :
    List.lookup p (IndexCache.removeKey l p) = none := by
  induction l with
  | nil => rfl
  | cons e rest ih =>
    rcases e with ⟨q, ws⟩
    simp only [IndexCache.removeKey]
    by_cases hqp : q = p
    · rw [if_pos hqp]
      exact ih
    · rw [if_neg hqp]
      rw [List.lookup_cons]
      have hpq : (p == q) = false := by
        simp only [beq_eq_false_iff_ne, ne_eq]
        intro hh
        exact hqp hh.symm
      rw [hpq]
      exact ih

/-- C6: the IndexCache performs at most one concurrent underlying load per PR
identifier. Starting from any state whose in-flight keys are distinct, every
transition keeps them distinct (a single in-flight load per identifier); a
request for an identifier that is already loaded or already loading starts no
new load; when a load completes, every waiter receives exactly the load's
result, success or failure alike; and a failed load leaves the cached stores
unchanged and the identifier not in flight, so that a subsequent request for
a still-unloaded identifier starts a fresh load. -/
theorem indexCache_single_flight :
    (∀ (st : IndexCache.CacheState) (e : IndexCache.CacheEvent),
      (st.inflight.map Prod.fst).Nodup →
      ((IndexCache.step st e).state.inflight.map Prod.fst).Nodup) ∧
      (∀ (st : IndexCache.CacheState) (p : String) (r : Nat),
        (List.lookup p st.loaded).isSome = true ∨ (List.lookup p st.inflight).isSome = true →
        (IndexCache.step st (IndexCache.CacheEvent.request p r)).loadsStarted = 0) ∧
      (∀ (st : IndexCache.CacheState) (p : String) (res : Except CoreError ContextStore)
        (d : Nat × Except CoreError ContextStore),
        d ∈ (IndexCache.step st (IndexCache.CacheEvent.complete p res)).deliveries →
        d.2 = res) ∧
      (∀ (st : IndexCache.CacheState) (p : String) (err : CoreError) (r : Nat),
        (IndexCache.step st (IndexCache.CacheEvent.complete p
            (Except.error err))).state.loaded = st.loaded ∧
        List.lookup p (IndexCache.step st (IndexCache.CacheEvent.complete p
            (Except.error err))).state.inflight = none ∧
        (List.lookup p st.loaded = none →
          (IndexCache.step (IndexCache.step st (IndexCache.CacheEvent.complete p
              (Except.error err))).state
            (IndexCache.CacheEvent.request p r)).loadsStarted = 1)) := by
  refine ⟨?_, ?_, ?_, ?_⟩
  · intro st e hnd
    cases e with
    | request p r =>
      rcases h1 : List.lookup p st.loaded with _ | store <;>
        rcases h2 : List.lookup p st.inflight with _ | ws <;>
        simp only [IndexCache.step, h1, h2]
      · exact List.nodup_cons.mpr ⟨lookup_none_not_mem_keys p st.inflight h2, hnd⟩
      · rw [addWaiter_keys p st.inflight r ws h2]
        exact hnd
      · exact hnd
      · exact hnd
    | complete p res =>
      simp only [IndexCache.step]
      exact hnd.sublist ((removeKey_sublist st.inflight p).map Prod.fst)
  · intro st p r h
    rcases h1 : List.lookup p st.loaded with _ | store
    · rcases h2 : List.lookup p st.inflight with _ | ws
      · exfalso
        rcases h with h | h
        · rw [h1] at h
          cases h
        · rw [h2] at h
          cases h
      · simp only [IndexCache.step, h1, h2]
    · simp only [IndexCache.step, h1]
  · intro st p res d hd
    have hm : d ∈ ((List.lookup p st.inflight).getD []).map (fun r => (r, res)) := hd
    rcases List.mem_map.mp hm with ⟨r, _, hr⟩
    rw [← hr]
  · intro st p err r
    refine ⟨rfl, lookup_removeKey_self st.inflight p, ?_⟩
    intro h
    simp only [IndexCache.step, h, lookup_removeKey_self]

/-- Witness for C6 at concrete cache states: a second requester joining an
in-flight load keeps the keys distinct and starts no load, a waiter receives
exactly the completed result, and after a failed load a retry starts exactly
one fresh load. -/
theorem indexCache_single_flight_witness :
    ((IndexCache.step ⟨[], [(("A"), [1])]⟩
        (IndexCache.CacheEvent.request ("A") 2)).state.inflight.map Prod.fst).Nodup ∧
      (IndexCache.step ⟨[], [(("A"), [1])]⟩
        (IndexCache.CacheEvent.request ("A") 3)).loadsStarted = 0 ∧
      (((1 : Nat), (Except.ok ⟨("A"), [], [], []⟩ : Except CoreError ContextStore)).2
        = (Except.ok ⟨("A"), [], [], []⟩ : Except CoreError ContextStore)) ∧
      (IndexCache.step (IndexCache.step ⟨[], [(("A"), [1])]⟩
          (IndexCache.CacheEvent.complete ("A") (Except.error CoreError.indexUnavailable))).state
        (IndexCache.CacheEvent.request ("A") 7)).loadsStarted = 1 :=
  ⟨indexCache_single_flight.1 ⟨[], [(("A"), [1])]⟩ (IndexCache.CacheEvent.request ("A") 2)
      (by decide),
    indexCache_single_flight.2.1 ⟨[], [(("A"), [1])]⟩ ("A") 3 (Or.inr (by decide)),
    indexCache_single_flight.2.2.1 ⟨[], [(("A"), [1, 2])]⟩ ("A")
      (Except.ok ⟨("A"), [], [], []⟩ : Except CoreError ContextStore)
      ((1 : Nat), (Except.ok ⟨("A"), [], [], []⟩ : Except CoreError ContextStore))
      (List.mem_cons_self _ _),
    (indexCache_single_flight.2.2.2 ⟨[], [(("A"), [1])]⟩ ("A")
        CoreError.indexUnavailable 7).2.2 rfl⟩

end ReviewCore

end CodeReviewBackend
